import Mathlib

/-!
Shallow embedding of the staggered grid reveal stylesheet
(`.animated-grid` / `.card` rules and the `cardEffect` keyframes).

The stylesheet declares, in source order:
  - a 4 by 4 `grid-template-areas` template with labels a..l and a merged
    star region;
  - a custom property `--stagger-delay: 100ms` on the grid container;
  - rules `.card:nth-child(n)` for n = 1..12, each declaring a grid area
    from the fixed sequence a,b,c,d,e,f,g,h,i,j,k,l and an animation delay
    of `calc(n * var(--stagger-delay))`;
  - a rule `.card:last-child` declaring grid area star and animation delay
    `calc(13 * var(--stagger-delay))`;
  - keyframes `cardEffect` from {opacity 0, scale 0.3, hue-rotate 180deg}
    to {opacity 1, scale 1, hue-rotate 0deg}, and `.card` applying
    `animation: cardEffect 700ms ease-out` with `animation-fill-mode: backwards`.

All `.card` selectors above have equal specificity (one class, one
pseudo-class), so for the last card, matched both by its nth-child rule
(when its position is at most 12) and by `.card:last-child`, the cascade
gives the later rule in source order the win: the last child takes the
star area and the 13-unit delay.
-/

/-- Grid area labels appearing in the template: the twelve single-cell
labels a..l and the merged star region. -/
inductive Region where
  | a | b | c | d | e | f | g | h | i | j | k | l | star
deriving DecidableEq, Repr

/-- The `grid-template-areas` declaration of `.animated-grid`, row by row. -/
def gridTemplateAreas : List (List Region) :=
  [[Region.a, Region.b, Region.c, Region.d],
   [Region.l, Region.star, Region.star, Region.e],
   [Region.k, Region.star, Region.star, Region.f],
   [Region.j, Region.i, Region.h, Region.g]]

/-- The label of the template cell at row r, column c (0-based), if inside
the template. -/
def cell (r c : Nat) : Option Region :=
  (gridTemplateAreas.get? r).bind (fun row => row.get? c)

/-- Declarations of the rule `.card:nth-child(n)` for n = 1..12: the grid
area and the multiplier of `--stagger-delay` in the animation delay.
Positions outside 1..12 match no nth-child rule. -/
def nthChildRule : Nat → Option (Region × Nat)
  | 1 => some (Region.a, 1)
  | 2 => some (Region.b, 2)
  | 3 => some (Region.c, 3)
  | 4 => some (Region.d, 4)
  | 5 => some (Region.e, 5)
  | 6 => some (Region.f, 6)
  | 7 => some (Region.g, 7)
  | 8 => some (Region.h, 8)
  | 9 => some (Region.i, 9)
  | 10 => some (Region.j, 10)
  | 11 => some (Region.k, 11)
  | 12 => some (Region.l, 12)
  | _ => none

/-- Declarations of the rule `.card:last-child`: grid area star, delay
multiplier 13. -/
def lastChildRule : Region × Nat :=
  (Region.star, 13)

/-- Cascade result for the card at 1-based position i among N cards.
`.card:last-child` appears after every `.card:nth-child(n)` rule and has
equal specificity, so when i = N its declarations win; otherwise only the
nth-child rule for i (if any) applies. -/
def cardStyle (i N : Nat) : Option (Region × Nat) :=
  if i = N then some lastChildRule else nthChildRule i

/-- Effective `grid-area` of the card at position i of N. -/
def gridArea (i N : Nat) : Option Region :=
  (cardStyle i N).map Prod.fst

/-- Effective multiplier of `--stagger-delay` in the animation delay of the
card at position i of N. -/
def delayUnits (i N : Nat) : Option Nat :=
  (cardStyle i N).map Prod.snd

/-- Effective declared `animation-delay` (in ms) of the card at position i
of N, for stagger unit u ms: the declared multiplier times u, when some
rule declares a delay. -/
def animationDelay (i N u : Nat) : Option Nat :=
  (delayUnits i N).map (fun m => m * u)

/-- Computed `animation-delay` (in ms) used by the rendering engine: the
declared value when a rule matches, otherwise the CSS initial value 0s. -/
def effectiveDelay (i N u : Nat) : Nat :=
  (animationDelay i N u).getD 0

/-- The fixed label sequence a,b,c,d,e,f,g,h,i,j,k,l assigned by the
nth-child rules, in child order. -/
def fixedLabels : List Region :=
  [Region.a, Region.b, Region.c, Region.d, Region.e, Region.f,
   Region.g, Region.h, Region.i, Region.j, Region.k, Region.l]

/-- The declared value of the custom property `--stagger-delay` on
`.animated-grid`, in ms: the stylesheet declares it as 100ms.
None would stand for an absent declaration. -/
def staggerDelayDeclared : Option Int :=
  some 100

/-- Resolution of `animation-delay: calc(n * var(--stagger-delay))` under
CSS custom property semantics: when the property is declared its value is
substituted, and when it is missing the var() reference makes the
declaration invalid at computed-value time, so the property falls back to
its initial value 0s. -/
def computedDelay (declared : Option Int) (units : Int) : Int :=
  match declared with
  | some v => units * v
  | none => 0

/-- Timing function of the entry animation (`ease-out` in the source). -/
inductive Timing where
  | easeOut
  | linear
deriving DecidableEq, Repr

/-- Animation fill mode (`backwards` in the source). -/
inductive FillMode where
  | backwards
  | none
deriving DecidableEq, Repr

/-- A visual state of a card as constrained by the `cardEffect`
keyframes: opacity, transform scale, and hue rotation in degrees. -/
structure VisualState where
  opacity : ℚ
  scale : ℚ
  hueRotateDeg : ℚ
deriving DecidableEq, Repr

/-- The `from` keyframe of `cardEffect`. -/
def cardEffectFrom : VisualState :=
  { opacity := 0, scale := 3 / 10, hueRotateDeg := 180 }

/-- The `to` keyframe of `cardEffect`. -/
def cardEffectTo : VisualState :=
  { opacity := 1, scale := 1, hueRotateDeg := 0 }

/-- The animation configuration a card receives: `animation: cardEffect
700ms ease-out`, `animation-fill-mode: backwards`, plus the per-position
delay. -/
structure CardAnimation where
  durationMs : Nat
  timing : Timing
  fillMode : FillMode
  fromState : VisualState
  toState : VisualState
  delayMs : Nat
deriving DecidableEq, Repr

/-- The full animation configuration of the card at position i of N with
stagger unit u. Every field except the delay comes from the single `.card`
rule and the `cardEffect` keyframes, shared by all cards. -/
def cardAnimation (i N u : Nat) : CardAnimation :=
  { durationMs := 700
    timing := Timing.easeOut
    fillMode := FillMode.backwards
    fromState := cardEffectFrom
    toState := cardEffectTo
    delayMs := effectiveDelay i N u }

/-- A card animation with the delay field cleared, used to compare the
per-item parameters other than the start delay. -/
def withoutDelay (ca : CardAnimation) : CardAnimation :=
  { ca with delayMs := 0 }

/-! Helper lemmas about the cascade. -/

/-- A non-last card at position 1..12 takes the declarations of its
nth-child rule. -/
theorem cardStyle_nonlast (i N : Nat) (hne : i ≠ N) :
    cardStyle i N = nthChildRule i := by
  simp [cardStyle, hne]

/-- The last card takes the declarations of `.card:last-child`. -/
theorem cardStyle_last (N : Nat) : cardStyle N N = some lastChildRule := by
  simp [cardStyle]

/-- Delay of a non-last card at position 1..12 is its position times the
stagger unit. -/
theorem animationDelay_nonlast (i N u : Nat) (h1 : 1 ≤ i) (h2 : i ≤ 12)
    (hne : i ≠ N) : animationDelay i N u = some (i * u) := by
  rw [animationDelay, delayUnits, cardStyle_nonlast i N hne]
  interval_cases i <;> rfl

/-- Delay of the last card is 13 times the stagger unit. -/
theorem animationDelay_last (N u : Nat) :
    animationDelay N N u = some (13 * u) := by
  rw [animationDelay, delayUnits, cardStyle_last]
  rfl

/-- Grid area of a non-last card at position 1..12 is the corresponding
label of the fixed sequence. -/
theorem gridArea_nonlast (i N : Nat) (h1 : 1 ≤ i) (h2 : i ≤ 12)
    (hne : i ≠ N) : gridArea i N = fixedLabels.get? (i - 1) := by
  rw [gridArea, cardStyle_nonlast i N hne]
  interval_cases i <;> rfl

/-- The star cells of the template, listed row major as (row, column)
pairs (0-based). -/
def starCells : List (Nat × Nat) :=
  (List.range 4).bind (fun r =>
    (List.range 4).filterMap (fun c =>
      if cell r c = some Region.star then some (r, c) else none))

/-- C1 counterexample: at position 5 of 5 cards with unit 100ms the
cascade gives the last-child delay 13 times 100ms, not 5 times 100ms, so
the delay of the item at position i does not always equal i times u. -/
theorem claim1_counterexample : animationDelay 5 5 100 ≠ some (5 * 100) := by
  decide

/-- C1 amended: for a position i in [1,12] that is not the last (i not
equal to N) and unit u greater than 0, the delay equals i times u, and the
delay is strictly increasing across such positions; the last position
instead receives 13 times u. -/
theorem claim1_amended (i j N u : Nat) (h1 : 1 ≤ i) (h2 : i ≤ 12)
    (hne : i ≠ N) (hu : 0 < u) (hij : i < j) (hj12 : j ≤ 12) (hjne : j ≠ N) :
    animationDelay i N u = some (i * u) ∧
    animationDelay j N u = some (j * u) ∧
    i * u < j * u ∧
    animationDelay N N u = some (13 * u) :=
  ⟨animationDelay_nonlast i N u h1 h2 hne,
   animationDelay_nonlast j N u (by omega) hj12 hjne,
   mul_lt_mul_of_pos_right hij hu,
   animationDelay_last N u⟩

/-- C1 witness: the amended statement at i = 1, j = 2, N = 13, u = 100. -/
theorem claim1_witness :
    animationDelay 1 13 100 = some (1 * 100) ∧
    animationDelay 2 13 100 = some (2 * 100) ∧
    1 * 100 < 2 * 100 ∧
    animationDelay 13 13 100 = some (13 * 100) :=
  claim1_amended 1 2 13 100 (by decide) (by decide) (by decide) (by decide)
    (by decide) (by decide) (by decide)

/-- C2: for every total count N at least 1, the last card (position N)
takes the merged star region, regardless of N, since the last-child rule
wins the cascade. -/
theorem claim2_last_region (N : Nat) (h1 : 1 ≤ N) :
    gridArea N N = some Region.star := by
  rw [gridArea, cardStyle_last]
  rfl

/-- C2 witness: the statement at N = 1. -/
theorem claim2_witness : gridArea 1 1 = some Region.star :=
  claim2_last_region 1 (by decide)

/-- C3: for every position i in [1,12] and total count N at least 13, the
card at position i takes the label at position i of the fixed sequence
a,b,c,d,e,f,g,h,i,j,k,l. -/
theorem claim3_positional (i N : Nat) (h1 : 1 ≤ i) (h2 : i ≤ 12)
    (hN : 13 ≤ N) : gridArea i N = fixedLabels.get? (i - 1) :=
  gridArea_nonlast i N h1 h2 (by omega)

/-- C3 witness: the statement at i = 1, N = 13. -/
theorem claim3_witness : gridArea 1 13 = fixedLabels.get? 0 :=
  claim3_positional 1 13 (by decide) (by decide) (by decide)

/-- C4 counterexample: with N = 5 and unit 50ms, the item at position 5 is
the last child, so its delay is 13 times 50ms, which is 650ms, not the
claimed 250ms. -/
theorem claim4_counterexample : animationDelay 5 5 50 ≠ some 250 := by
  decide

/-- C4 amended: with N = 5 and unit 50ms, item 5 takes the merged star
region (not region e) and its animation delay is 650ms (13 times 50ms),
not 250ms. -/
theorem claim4_amended :
    gridArea 5 5 = some Region.star ∧ animationDelay 5 5 50 = some 650 := by
  decide

/-- C5: the template is a 4 by 4 rectangle with exactly 13 distinct
regions: each of the 12 labels a..l covers exactly one cell and the star
region covers exactly the 4 cells of the middle 2 by 2 block (rows 1..2,
columns 1..2, 0-based). -/
theorem claim5_template :
    gridTemplateAreas.length = 4 ∧
    gridTemplateAreas.map List.length = [4, 4, 4, 4] ∧
    gridTemplateAreas.join.dedup.length = 13 ∧
    fixedLabels.map (fun r => gridTemplateAreas.join.count r) =
      List.replicate 12 1 ∧
    gridTemplateAreas.join.count Region.star = 4 ∧
    starCells = [(1, 1), (1, 2), (2, 1), (2, 2)] := by
  decide

/-- C6 counterexample: with unit 100ms and N = 14 cards, position 13 is
neither in 1..12 nor last, so no rule declares its delay and the computed
delay falls back to 0ms, below the 1200ms of position 12: the delay
sequence over positions 1..N is not monotonically non-decreasing for
every N. -/
theorem claim6_counterexample :
    ¬ effectiveDelay 12 14 100 ≤ effectiveDelay 13 14 100 := by
  decide

/-- C6 amended: for unit u greater than 0 and total count N at most 13,
the computed delays over positions 1..N are monotonically non-decreasing,
and strictly increasing while the larger position is at most 12. -/
theorem claim6_amended (u N i j : Nat) (hu : 0 < u) (hN : N ≤ 13)
    (h1 : 1 ≤ i) (hij : i ≤ j) (hj : j ≤ N) :
    effectiveDelay i N u ≤ effectiveDelay j N u ∧
    (i < j → j ≤ 12 → effectiveDelay i N u < effectiveDelay j N u) := by
  rcases Nat.eq_or_lt_of_le hij with rfl | hlt
  · exact ⟨Nat.le_refl _, fun h => absurd h (Nat.lt_irrefl i)⟩
  · have hi12 : i ≤ 12 := by omega
    have hine : i ≠ N := by omega
    have hidelay : effectiveDelay i N u = i * u := by
      rw [effectiveDelay, animationDelay_nonlast i N u h1 hi12 hine]
      rfl
    by_cases hjN : j = N
    · subst hjN
      have hjdelay : effectiveDelay j j u = 13 * u := by
        rw [effectiveDelay, animationDelay_last]
        rfl
      rw [hidelay, hjdelay]
      exact ⟨mul_le_mul_of_nonneg_right (by omega) (Nat.zero_le u),
        fun _ _ => mul_lt_mul_of_pos_right (by omega) hu⟩
    · have hjdelay : effectiveDelay j N u = j * u := by
        rw [effectiveDelay, animationDelay_nonlast j N u (by omega) (by omega) hjN]
        rfl
      rw [hidelay, hjdelay]
      exact ⟨mul_le_mul_of_nonneg_right (by omega) (Nat.zero_le u),
        fun _ _ => mul_lt_mul_of_pos_right hlt hu⟩

/-- C6 witness: the amended statement at u = 100, N = 13, i = 5, j = 12. -/
theorem claim6_witness :
    effectiveDelay 5 13 100 ≤ effectiveDelay 12 13 100 ∧
    (5 < 12 → 12 ≤ 12 → effectiveDelay 5 13 100 < effectiveDelay 12 13 100) :=
  claim6_amended 100 13 5 12 (by decide) (by decide) (by decide) (by decide)
    (by decide)

/-- C7: every card, at every position, gets the same entry animation:
duration 700ms, ease-out curve, from opacity 0, scale 0.3, hue rotated
180deg to opacity 1, scale 1, hue rotation 0deg, with fill mode backwards
so the pre-start state persists until its delay elapses; apart from the
start delay no per-item parameter varies. -/
theorem claim7_entry_animation :
    ∀ i N u : Nat,
      (cardAnimation i N u).durationMs = 700 ∧
      (cardAnimation i N u).timing = Timing.easeOut ∧
      (cardAnimation i N u).fillMode = FillMode.backwards ∧
      (cardAnimation i N u).fromState =
        { opacity := 0, scale := 3 / 10, hueRotateDeg := 180 } ∧
      (cardAnimation i N u).toState =
        { opacity := 1, scale := 1, hueRotateDeg := 0 } ∧
      (cardAnimation i N u).delayMs = effectiveDelay i N u ∧
      ∀ i2 N2 u2 : Nat,
        withoutDelay (cardAnimation i N u) = withoutDelay (cardAnimation i2 N2 u2) :=
  fun _ _ _ => ⟨rfl, rfl, rfl, rfl, rfl, rfl, fun _ _ _ => rfl⟩

/-- C8 counterexample: with the custom property missing, the declaration
is invalid at computed-value time and a one-unit delay resolves to the
initial value 0ms, not to one unit of the documented 100ms default: no
defaulting happens. -/
theorem claim8_counterexample : computedDelay none 1 ≠ 1 * 100 := by
  decide

/-- C8 amended: the stylesheet declares the unit delay as 100ms, matching
the documented default, but there is no fallback logic: a missing custom
property makes every computed delay resolve to 0ms, and any declared
value, non-positive ones included, is used as-is. -/
theorem claim8_amended :
    staggerDelayDeclared = some 100 ∧
    (∀ n : Int, computedDelay none n = 0) ∧
    (∀ v n : Int, computedDelay (some v) n = n * v) :=
  ⟨rfl, fun _ => rfl, fun _ _ => rfl⟩

/-- C9: region and delay assignment are deterministic pure functions of
position, total count and unit: identical inputs give identical outputs,
with no hidden state. -/
theorem claim9_deterministic (i N u i2 N2 u2 : Nat) (hi : i = i2)
    (hN : N = N2) (hu : u = u2) :
    gridArea i N = gridArea i2 N2 ∧
    animationDelay i N u = animationDelay i2 N2 u2 := by
  subst hi
  subst hN
  subst hu
  exact ⟨rfl, rfl⟩

/-- C9 witness: the statement at i = 5, N = 13, u = 100 twice. -/
theorem claim9_witness :
    gridArea 5 13 = gridArea 5 13 ∧
    animationDelay 5 13 100 = animationDelay 5 13 100 :=
  claim9_deterministic 5 13 100 5 13 100 rfl rfl rfl

/-- C10: for every total count N in [1,13] and unit u greater than 0, the
last card gets delay 13 times u, independent of N, and the star region;
for N below 13 that delay exceeds N times u. -/
theorem claim10_last_delay (N u : Nat) (h1 : 1 ≤ N) (h13 : N ≤ 13)
    (hu : 0 < u) :
    animationDelay N N u = some (13 * u) ∧
    gridArea N N = some Region.star ∧
    (N < 13 → N * u < 13 * u) :=
  ⟨animationDelay_last N u,
   by rw [gridArea, cardStyle_last]; rfl,
   fun h => mul_lt_mul_of_pos_right h hu⟩

/-- C10 witness: the statement at N = 5, u = 50. -/
theorem claim10_witness :
    animationDelay 5 5 50 = some (13 * 50) ∧
    gridArea 5 5 = some Region.star ∧
    (5 < 13 → 5 * 50 < 13 * 50) :=
  claim10_last_delay 5 50 (by decide) (by decide) (by decide)
